import Mathlib

/-!
Verification of the django-odata repository: the OData error taxonomy
(src/django_odata/exceptions.py) and the per-request query-plan cache
(django_odata.utils, exercised by src/tests/test_utils_caching.py).

Python dictionaries with string keys are embedded as ordered association
lists; dictionary item assignment and dict.update are embedded by dictSet
and dictUpdate below, which preserve insertion order and overwrite on key
collision, exactly as CPython dicts do.
-/

/-- A JSON-like value, the payload currency of the OData error responses. -/
inductive JValue where
  | str : String → JValue
  | list : List JValue → JValue
  | obj : List (String × JValue) → JValue

/-- Look a key up in an ordered association list (Python dict indexing). -/
def dictGet : List (String × JValue) → String → Option JValue
  | [], _ => none
  | p :: rest, k => if p.1 = k then some p.2 else dictGet rest k

/-- Set a key in an ordered association list: overwrite the first binding in
place when the key is present, append at the end otherwise (Python dict item
assignment; dict keys are unique, so the first binding is the only one). -/
def dictSet : List (String × JValue) → String → JValue → List (String × JValue)
  | [], k, v => [(k, v)]
  | p :: rest, k, v => if p.1 = k then (k, v) :: rest else p :: dictSet rest k v

/-- Python dict.update: fold dictSet over the incoming items in order. -/
def dictUpdate (base extra : List (String × JValue)) : List (String × JValue) :=
  extra.foldl (fun acc p => dictSet acc p.1 p.2) base

/-- exceptions.py line 24: the class attribute default_code, never overridden
by any subclass; it is the code placed at the top level of the payload. -/
def default_code : String := "BadRequest"

/-- exceptions.py line 30: the default value of the target parameter of
ODataFilterError.init. -/
def defaultTarget : String := "$filter"

/-- The first (and only) entry of the error details list built by
ODataFilterError.init, lines 51-61: the standard code/message/target dict,
updated with the caller-supplied details when those are non-empty. -/
def errorDetailsEntry (message code target : String)
    (details : List (String × JValue)) : List (String × JValue) :=
  let base := [("code", JValue.str code), ("message", JValue.str message),
    ("target", JValue.str target)]
  if details.isEmpty then base else dictUpdate base details

/-- The observable state of a constructed ODataFilterError: the attributes
set by init and the OData-compliant detail payload passed to the APIException
constructor. first_detail records the single entry of the details list (the
Python local error_details with index zero); detail embeds it verbatim. The
original_exception argument is not modelled: it never reaches the payload. -/
structure ODataFilterError where
  message : String
  error_code : String
  target : String
  details : List (String × JValue)
  first_detail : List (String × JValue)
  detail : JValue

/-- ODataFilterError.__init__ (exceptions.py lines 26-72). -/
def ODataFilterError.init (message code target : String)
    (details : List (String × JValue)) : ODataFilterError :=
  let entry := errorDetailsEntry message code target details
  { message := message
    error_code := code
    target := target
    details := details
    first_detail := entry
    detail := JValue.obj [("error", JValue.obj
      [("code", JValue.str default_code),
       ("message", JValue.str message),
       ("details", JValue.list [JValue.obj entry])])] }

/-- ODataFieldNotFoundError.__init__ (exceptions.py lines 75-93). -/
def ODataFieldNotFoundError.init (field_name model_name : String) :
    ODataFilterError :=
  ODataFilterError.init
    ("Field \x27" ++ field_name ++ "\x27 does not exist on entity \x27" ++
      model_name ++ "\x27")
    "FieldNotFound" "$filter"
    [("field", JValue.str field_name), ("entity", JValue.str model_name)]

/-- ODataInvalidFilterSyntaxError.__init__ (exceptions.py lines 96-117). -/
def ODataInvalidFilterSyntaxError.init (filter_expression dtl : String) :
    ODataFilterError :=
  let message0 := "Invalid filter expression: " ++ filter_expression
  let message := if dtl = "" then message0 else message0 ++ " - " ++ dtl
  ODataFilterError.init message "InvalidFilterSyntax" "$filter"
    [("expression", JValue.str filter_expression),
     ("syntax_error", JValue.str dtl)]

/-- exceptions.py lines 131-144: the fixed valid-operator enumeration. -/
def valid_operators : List String :=
  ["eq", "ne", "gt", "ge", "lt", "le", "and", "or", "not",
   "contains", "startswith", "endswith"]

/-- ODataInvalidOperatorError.__init__ (exceptions.py lines 120-157). -/
def ODataInvalidOperatorError.init (operator filter_expression : String) :
    ODataFilterError :=
  ODataFilterError.init
    ("Unknown operator \x27" ++ operator ++ "\x27. Valid operators: " ++
      String.intercalate ", " valid_operators)
    "InvalidOperator" "$filter"
    [("operator", JValue.str operator),
     ("expression", JValue.str filter_expression),
     ("valid_operators", JValue.list (valid_operators.map JValue.str))]

/-- ODataInvalidValueError.__init__ (exceptions.py lines 160-180). -/
def ODataInvalidValueError.init (value expected_type field : String) :
    ODataFilterError :=
  ODataFilterError.init
    ("Invalid value \x27" ++ value ++ "\x27 for field \x27" ++ field ++
      "\x27. Expected type: " ++ expected_type)
    "InvalidValue" "$filter"
    [("value", JValue.str value), ("expected_type", JValue.str expected_type),
     ("field", JValue.str field)]

/-- ODataExpandError.__init__ (exceptions.py lines 183-211). The Python
argument valid_fields defaults to None; both None and the empty list are
falsy, so they select the short message and an empty valid_choices list. -/
def ODataExpandError.init (field_name model_name : String)
    (valid_fields : Option (List String)) : ODataFilterError :=
  let vf := valid_fields.getD []
  let message :=
    if vf.isEmpty then
      "Invalid field name(s) given in select_related: \x27" ++ field_name ++
        "\x27"
    else
      "Invalid field name(s) given in select_related: \x27" ++ field_name ++
        "\x27. Choices are: " ++
        String.intercalate ", " (vf.map (fun f => "\x27" ++ f ++ "\x27"))
  ODataFilterError.init message "InvalidExpandField" "$expand"
    [("field", JValue.str field_name), ("entity", JValue.str model_name),
     ("valid_choices", JValue.list (vf.map JValue.str))]

/-- The stable wire shape of the error payload: an object with a single
error member, itself an object with code, message and a non-empty details
list whose first entry is an object carrying code, message and target keys
(possibly among extra keys). -/
def WellShapedPayload (v : JValue) : Prop :=
  ∃ topCode topMsg entry rest,
    v = JValue.obj [("error", JValue.obj
      [("code", JValue.str topCode), ("message", JValue.str topMsg),
       ("details", JValue.list (JValue.obj entry :: rest))])] ∧
    (∃ w, dictGet entry "code" = some w) ∧
    (∃ w, dictGet entry "message" = some w) ∧
    (∃ w, dictGet entry "target" = some w)

/-- s contains t as a contiguous substring. -/
def strContains (s t : String) : Prop :=
  ∃ a b, s = a ++ t ++ b

/-!
The request cache. The module django_odata.utils, which defines
_generate_request_cache_key, apply_odata_query_params, clear_odata_cache and
odata_cache_context, is not part of the available sources; only its test
suite (src/tests/test_utils_caching.py) is. The definitions below are
therefore modelled from the spec, sections 4.5 and 8. Object identity, which
the tests observe through the Python `is` operator, is embedded by tagging
every freshly built Query Plan with a number drawn from a monotonically
increasing allocator that is global to the process, while the cache entries
themselves are per scope. The digest is embedded as the canonical
(entity, sorted parameter list) pair itself: the canonical serialization the
spec asks the digest to be computed over.
-/

/-- Modelled from the spec: a Query Plan as cached by the request cache,
carrying its object identity (ident) next to its structure, which is
determined by the entity identity and the canonical parameter mapping the
plan was translated from. -/
structure QueryPlan where
  ident : Nat
  entity : String
  plan_params : List (String × String)
deriving DecidableEq

/-- Modelled from the spec: structural equality of Query Plans, ignoring
object identity. -/
def QueryPlan.structEq (p q : QueryPlan) : Prop :=
  p.entity = q.entity ∧ p.plan_params = q.plan_params

/-- Modelled from the spec: the canonical order-independent serialization of
the raw parameter mapping, obtained by sorting the items by key. -/
def canonicalize (ps : List (String × String)) : List (String × String) :=
  List.insertionSort (fun a b => a.1 ≤ b.1) ps

/-- Modelled from the spec: _generate_request_cache_key, a stable digest over
the entity identity and the canonical serialization of the raw parameters,
embedded as the canonical pair itself. -/
def generate_request_cache_key (entity : String)
    (ps : List (String × String)) : String × List (String × String) :=
  (entity, canonicalize ps)

/-- Modelled from the spec: one cache scope, the mapping from cache key to
stored Query Plan that one logical request sees. -/
abbrev Scope : Type :=
  List ((String × List (String × String)) × QueryPlan)

/-- Look a key up in a scope. -/
def scopeLookup (s : Scope) (k : String × List (String × String)) :
    Option QueryPlan :=
  match s with
  | [] => none
  | e :: rest => if e.1 = k then some e.2 else scopeLookup rest k

/-- Modelled from the spec: apply_odata_query_params, the translation entry
point. It computes the cache key; on a hit in the active scope it returns the
stored plan unchanged, on a miss it builds a fresh plan (a new object, tagged
with the next allocator value), stores it in the scope and returns it. -/
def apply_odata_query_params (scope : Scope) (alloc : Nat) (entity : String)
    (ps : List (String × String)) : QueryPlan × Scope × Nat :=
  let key := generate_request_cache_key entity ps
  match scopeLookup scope key with
  | some plan => (plan, scope, alloc)
  | none =>
    let plan : QueryPlan := ⟨alloc, entity, canonicalize ps⟩
    (plan, scope ++ [(key, plan)], alloc + 1)

/-- Modelled from the spec: clear_odata_cache drops every entry of the active
scope. -/
def clear_odata_cache (_scope : Scope) : Scope := []

/-- Modelled from the spec: odata_cache_context establishes a fresh, isolated
cache scope, initially empty. A fresh contextvars.Context in the tests plays
the same role. -/
def odata_cache_context : Scope := []

/-- The scenario of test_cache_hit_same_request: translate the same
parameters twice within one scope; returns the two plans. -/
def translateTwice (scope : Scope) (alloc : Nat) (entity : String)
    (ps : List (String × String)) : QueryPlan × QueryPlan :=
  let r1 := apply_odata_query_params scope alloc entity ps
  let r2 := apply_odata_query_params r1.2.1 r1.2.2 entity ps
  (r1.1, r2.1)

/-- The scenario of test_cache_isolation_between_requests: translate the
same parameters once in each of two fresh scopes, the second starting from
the allocator state the first left behind; returns the two plans. -/
def translateTwoScopes (alloc : Nat) (entity : String)
    (ps : List (String × String)) : QueryPlan × QueryPlan :=
  let s1 := apply_odata_query_params odata_cache_context alloc entity ps
  let s2 := apply_odata_query_params odata_cache_context s1.2.2 entity ps
  (s1.1, s2.1)

/-- The scenario of test_clear_cache_functionality: translate, translate
again (a hit), clear the scope, translate a third time; returns the three
plans. -/
def translateClearScenario (alloc : Nat) (entity : String)
    (ps : List (String × String)) : QueryPlan × QueryPlan × QueryPlan :=
  let r1 := apply_odata_query_params odata_cache_context alloc entity ps
  let r2 := apply_odata_query_params r1.2.1 r1.2.2 entity ps
  let r3 := apply_odata_query_params (clear_odata_cache r2.2.1) r2.2.2
    entity ps
  (r1.1, r2.1, r3.1)

instance : IsTotal (String × String) (fun a b => a.1 ≤ b.1) :=
  ⟨fun a b => le_total a.1 b.1⟩

instance : IsTrans (String × String) (fun a b => a.1 ≤ b.1) :=
  ⟨fun _ _ _ h1 h2 => le_trans h1 h2⟩

instance : IsAntisymm (String × String) (fun a b => a.1 < b.1) :=
  ⟨fun _ _ h1 h2 => absurd h1 (lt_asymm h2)⟩

/-!
Helper lemmas about the dictionary embedding and the scope lookup.
-/

theorem dictGet_dictSet (d : List (String × JValue)) (k k2 : String)
    (v : JValue) :
    dictGet (dictSet d k2 v) k = if k2 = k then some v else dictGet d k := by
  induction d with
  | nil =>
    by_cases hk : k2 = k <;> simp [dictSet, dictGet, hk]
  | cons p rest ih =>
    by_cases hp : p.1 = k2
    · by_cases hk : k2 = k
      · simp [dictSet, dictGet, hp, hk]
      · have hpk : ¬ p.1 = k := fun h => hk (hp.symm.trans h)
        simp [dictSet, dictGet, hp, hk, hpk]
    · by_cases hpk : p.1 = k
      · have hk : ¬ k2 = k := fun h => hp (hpk.trans h.symm)
        have hk2 : ¬ k = k2 := fun h => hp (hpk.trans h)
        simp [dictSet, dictGet, hp, hpk, hk, hk2]
      · simp [dictSet, dictGet, hp, hpk, ih]

theorem isSome_dictGet_dictUpdate (d extra : List (String × JValue))
    (k : String) (h : (dictGet d k).isSome) :
    (dictGet (dictUpdate d extra) k).isSome := by
  induction extra generalizing d with
  | nil => simpa [dictUpdate] using h
  | cons p rest ih =>
    have hstep : (dictGet (dictSet d p.1 p.2) k).isSome := by
      rw [dictGet_dictSet]
      by_cases hk : p.1 = k
      · simp [hk]
      · simpa [hk] using h
    simpa [dictUpdate, List.foldl_cons] using ih (dictSet d p.1 p.2) hstep

theorem dictGet_dictUpdate_of_not_mem (d extra : List (String × JValue))
    (k : String) (h : ∀ p ∈ extra, p.1 ≠ k) :
    dictGet (dictUpdate d extra) k = dictGet d k := by
  induction extra generalizing d with
  | nil => simp [dictUpdate]
  | cons p rest ih =>
    have hp : p.1 ≠ k := h p (List.mem_cons_self p rest)
    have hrest : ∀ q ∈ rest, q.1 ≠ k := fun q hq => h q (List.mem_cons_of_mem p hq)
    calc dictGet (dictUpdate d (p :: rest)) k
        = dictGet (dictUpdate (dictSet d p.1 p.2) rest) k := by
          simp [dictUpdate, List.foldl_cons]
      _ = dictGet (dictSet d p.1 p.2) k := ih (dictSet d p.1 p.2) hrest
      _ = dictGet d k := by rw [dictGet_dictSet]; simp [hp]

theorem dictGet_dictUpdate_of_mem (d extra : List (String × JValue))
    (k : String) (v : JValue) (hmem : (k, v) ∈ extra)
    (hnd : (extra.map Prod.fst).Nodup) :
    dictGet (dictUpdate d extra) k = some v := by
  induction extra generalizing d with
  | nil => cases hmem
  | cons p rest ih =>
    have hnd2 : (rest.map Prod.fst).Nodup := (List.nodup_cons.mp hnd).2
    rcases List.mem_cons.mp hmem with heq | hrest
    · subst heq
      have hk : k ∉ rest.map Prod.fst := by
        simpa using (List.nodup_cons.mp hnd).1
      have hno : ∀ q ∈ rest, q.1 ≠ k := by
        intro q hq hqk
        exact hk (hqk ▸ List.mem_map_of_mem Prod.fst hq)
      calc dictGet (dictUpdate d ((k, v) :: rest)) k
          = dictGet (dictUpdate (dictSet d k v) rest) k := by
            simp [dictUpdate, List.foldl_cons]
        _ = dictGet (dictSet d k v) k :=
            dictGet_dictUpdate_of_not_mem _ _ _ hno
        _ = some v := by rw [dictGet_dictSet]; simp
    · calc dictGet (dictUpdate d (p :: rest)) k
          = dictGet (dictUpdate (dictSet d p.1 p.2) rest) k := by
            simp [dictUpdate, List.foldl_cons]
        _ = some v := ih (dictSet d p.1 p.2) hrest hnd2

theorem string_append_assoc (a b c : String) : a ++ b ++ c = a ++ (b ++ c) := by
  rcases a with ⟨da⟩
  rcases b with ⟨db⟩
  rcases c with ⟨dc⟩
  exact String.ext (List.append_assoc da db dc)

theorem exists_dictGet_errorDetailsEntry (m c t k : String)
    (d : List (String × JValue))
    (h : (dictGet [("code", JValue.str c), ("message", JValue.str m),
      ("target", JValue.str t)] k).isSome) :
    ∃ w, dictGet (errorDetailsEntry m c t d) k = some w := by
  simp only [errorDetailsEntry]
  by_cases hd : d.isEmpty
  · simp only [hd, if_true]
    exact Option.isSome_iff_exists.mp h
  · simp only [hd, if_false]
    exact Option.isSome_iff_exists.mp (isSome_dictGet_dictUpdate _ _ _ h)

theorem wellShaped_init (m c t : String) (d : List (String × JValue)) :
    WellShapedPayload (ODataFilterError.init m c t d).detail := by
  refine ⟨default_code, m, errorDetailsEntry m c t d, [], rfl, ?_, ?_, ?_⟩
  · exact exists_dictGet_errorDetailsEntry m c t "code" d (by simp [dictGet])
  · exact exists_dictGet_errorDetailsEntry m c t "message" d
      (by simp [dictGet])
  · exact exists_dictGet_errorDetailsEntry m c t "target" d
      (by simp [dictGet])

theorem scopeLookup_append (a b : Scope) (k : String × List (String × String)) :
    scopeLookup (a ++ b) k =
      match scopeLookup a k with
      | some p => some p
      | none => scopeLookup b k := by
  induction a with
  | nil => simp [scopeLookup]
  | cons e rest ih =>
    by_cases he : e.1 = k
    · simp [scopeLookup, he]
    · simp [scopeLookup, he, ih]

/-- Claim C3: every error kind in the taxonomy (base filter error,
field-not-found, invalid syntax, invalid operator, invalid value, expand)
builds a payload of the stable shape: an error object with code, message and
a details list whose first entry carries its own code, message and target
keys, plus any extra detail keys. -/
theorem error_payload_shape_all_kinds
    (m c t f e op fx v ty fld d : String) (extra : List (String × JValue))
    (vf : Option (List String)) :
    WellShapedPayload (ODataFilterError.init m c t extra).detail ∧
    WellShapedPayload (ODataFieldNotFoundError.init f e).detail ∧
    WellShapedPayload (ODataInvalidFilterSyntaxError.init fx d).detail ∧
    WellShapedPayload (ODataInvalidOperatorError.init op fx).detail ∧
    WellShapedPayload (ODataInvalidValueError.init v ty fld).detail ∧
    WellShapedPayload (ODataExpandError.init f e vf).detail :=
  ⟨wellShaped_init m c t extra,
   wellShaped_init _ _ _ _,
   wellShaped_init _ _ _ _,
   wellShaped_init _ _ _ _,
   wellShaped_init _ _ _ _,
   wellShaped_init _ _ _ _⟩

/-- Claim C9: the top-level error code of the payload is always the literal
BadRequest, whatever kind-specific code the subclass passes; the kind code
(FieldNotFound, InvalidFilterSyntax, InvalidOperator, InvalidValue,
InvalidExpandField) appears under the code key of the first details entry. -/
theorem top_level_code_always_bad_request
    (m c t f e op fx v ty fld d : String) (extra : List (String × JValue))
    (vf : Option (List String)) :
    (ODataFilterError.init m c t extra).detail = JValue.obj
      [("error", JValue.obj
        [("code", JValue.str "BadRequest"),
         ("message", JValue.str m),
         ("details", JValue.list
           [JValue.obj (ODataFilterError.init m c t extra).first_detail])])] ∧
    dictGet (ODataFieldNotFoundError.init f e).first_detail "code" =
      some (JValue.str "FieldNotFound") ∧
    dictGet (ODataInvalidFilterSyntaxError.init fx d).first_detail "code" =
      some (JValue.str "InvalidFilterSyntax") ∧
    dictGet (ODataInvalidOperatorError.init op fx).first_detail "code" =
      some (JValue.str "InvalidOperator") ∧
    dictGet (ODataInvalidValueError.init v ty fld).first_detail "code" =
      some (JValue.str "InvalidValue") ∧
    dictGet (ODataExpandError.init f e vf).first_detail "code" =
      some (JValue.str "InvalidExpandField") := by
  refine ⟨rfl, ?_, ?_, ?_, ?_, ?_⟩ <;>
    simp [ODataFieldNotFoundError.init, ODataInvalidFilterSyntaxError.init,
      ODataInvalidOperatorError.init, ODataInvalidValueError.init,
      ODataExpandError.init, ODataFilterError.init, errorDetailsEntry,
      dictUpdate, dictSet, dictGet, valid_operators]

/-- Claim C6: the reported target of the first details entry defaults to
the filter parameter (the base constructor applied at its declared default),
every non-expand error kind reports that target, and the expand error kind
reports the expand parameter instead. -/
theorem detail_target_by_error_kind
    (m c f e op fx v ty fld d : String) (vf : Option (List String)) :
    defaultTarget = "$filter" ∧
    dictGet (ODataFilterError.init m c defaultTarget []).first_detail
      "target" = some (JValue.str "$filter") ∧
    dictGet (ODataFieldNotFoundError.init f e).first_detail "target" =
      some (JValue.str "$filter") ∧
    dictGet (ODataInvalidFilterSyntaxError.init fx d).first_detail "target" =
      some (JValue.str "$filter") ∧
    dictGet (ODataInvalidOperatorError.init op fx).first_detail "target" =
      some (JValue.str "$filter") ∧
    dictGet (ODataInvalidValueError.init v ty fld).first_detail "target" =
      some (JValue.str "$filter") ∧
    dictGet (ODataExpandError.init f e vf).first_detail "target" =
      some (JValue.str "$expand") := by
  refine ⟨rfl, ?_, ?_, ?_, ?_, ?_, ?_⟩ <;>
    simp [ODataFieldNotFoundError.init, ODataInvalidFilterSyntaxError.init,
      ODataInvalidOperatorError.init, ODataInvalidValueError.init,
      ODataExpandError.init, ODataFilterError.init, errorDetailsEntry,
      dictUpdate, dictSet, dictGet, defaultTarget]

/-- Claim C4: the invalid-operator error enumerates the fixed valid-operator
set in its payload, and that enumeration is exactly eq, ne, gt, ge, lt, le,
and, or, not, contains, startswith, endswith, both under the valid key of
the details entry and joined into the message. -/
theorem invalid_operator_enumeration (op fx : String) :
    valid_operators = ["eq", "ne", "gt", "ge", "lt", "le", "and", "or",
      "not", "contains", "startswith", "endswith"] ∧
    String.intercalate ", " valid_operators =
      "eq, ne, gt, ge, lt, le, and, or, not, contains, startswith, endswith" ∧
    (ODataInvalidOperatorError.init op fx).message =
      "Unknown operator \x27" ++ op ++ "\x27. Valid operators: " ++
        String.intercalate ", " valid_operators ∧
    dictGet (ODataInvalidOperatorError.init op fx).first_detail
      "valid_operators" =
      some (JValue.list (valid_operators.map JValue.str)) := by
  refine ⟨rfl, by decide, rfl, ?_⟩
  simp [ODataInvalidOperatorError.init, ODataFilterError.init,
    errorDetailsEntry, dictUpdate, dictSet, dictGet, valid_operators]

/-- Claim C5: the field-not-found error names both the offending field and
the entity: the message contains both as substrings, and the details entry
carries them under the field and entity keys. -/
theorem field_not_found_names_field_and_entity (f e : String) :
    strContains (ODataFieldNotFoundError.init f e).message f ∧
    strContains (ODataFieldNotFoundError.init f e).message e ∧
    dictGet (ODataFieldNotFoundError.init f e).first_detail "field" =
      some (JValue.str f) ∧
    dictGet (ODataFieldNotFoundError.init f e).first_detail "entity" =
      some (JValue.str e) := by
  refine ⟨⟨"Field \x27",
      "\x27 does not exist on entity \x27" ++ e ++ "\x27", ?_⟩,
    ⟨"Field \x27" ++ f ++ "\x27 does not exist on entity \x27", "\x27", ?_⟩,
    ?_, ?_⟩
  · show ("Field \x27" ++ f ++ "\x27 does not exist on entity \x27" ++ e ++
      "\x27") = _
    simp [string_append_assoc]
  · show ("Field \x27" ++ f ++ "\x27 does not exist on entity \x27" ++ e ++
      "\x27") = _
    simp [string_append_assoc]
  · simp [ODataFieldNotFoundError.init, ODataFilterError.init,
      errorDetailsEntry, dictUpdate, dictSet, dictGet]
  · simp [ODataFieldNotFoundError.init, ODataFilterError.init,
      errorDetailsEntry, dictUpdate, dictSet, dictGet]

/-- Claim C7: when a non-empty valid-field list is supplied, the expand
error message enumerates the valid relation choices, and the details entry
carries the field, the entity and the valid-choices list. -/
theorem expand_error_lists_choices (f e : String) (l : List String)
    (h : l ≠ []) :
    (ODataExpandError.init f e (some l)).message =
      "Invalid field name(s) given in select_related: \x27" ++ f ++
        "\x27. Choices are: " ++
        String.intercalate ", " (l.map (fun s => "\x27" ++ s ++ "\x27")) ∧
    dictGet (ODataExpandError.init f e (some l)).first_detail "field" =
      some (JValue.str f) ∧
    dictGet (ODataExpandError.init f e (some l)).first_detail "entity" =
      some (JValue.str e) ∧
    dictGet (ODataExpandError.init f e (some l)).first_detail
      "valid_choices" = some (JValue.list (l.map JValue.str)) := by
  have hne : l.isEmpty = false := by
    cases l with
    | nil => cases h rfl
    | cons a rest => rfl
  refine ⟨?_, ?_, ?_, ?_⟩ <;>
    simp [ODataExpandError.init, ODataFilterError.init, errorDetailsEntry,
      dictUpdate, dictSet, dictGet, hne]

/-- Witness for claim C7 at a concrete input: expanding publisher on Author
whose valid relations are author and tags. -/
theorem expand_error_lists_choices_witness :
    (["author", "tags"] : List String) ≠ [] ∧
    (ODataExpandError.init "publisher" "Author"
        (some ["author", "tags"])).message =
      "Invalid field name(s) given in select_related: \x27publisher\x27. " ++
        "Choices are: " ++
        String.intercalate ", "
          (["author", "tags"].map (fun s => "\x27" ++ s ++ "\x27")) ∧
    dictGet (ODataExpandError.init "publisher" "Author"
        (some ["author", "tags"])).first_detail "valid_choices" =
      some (JValue.list (["author", "tags"].map JValue.str)) := by
  have h := expand_error_lists_choices "publisher" "Author"
    ["author", "tags"] (by decide)
  exact ⟨by decide, by rw [h.1]; decide, h.2.2.2⟩

/-- Claim C10: a non-empty caller-supplied details dictionary is merged into
the first details entry, and a caller-supplied binding for any key, the
standard code, message and target keys included, overwrites the standard
value of that key in the reported entry. -/
theorem caller_details_overwrite (m c t : String)
    (extra : List (String × JValue)) (k : String) (v : JValue)
    (hmem : (k, v) ∈ extra) (hnd : (extra.map Prod.fst).Nodup) :
    dictGet (ODataFilterError.init m c t extra).first_detail k = some v := by
  have hne : extra.isEmpty = false := by
    cases extra with
    | nil => cases hmem
    | cons p rest => rfl
  show dictGet (errorDetailsEntry m c t extra) k = some v
  simp only [errorDetailsEntry, hne, Bool.false_eq_true, if_false]
  exact dictGet_dictUpdate_of_mem _ _ _ _ hmem hnd

/-- Witness for claim C10 at a concrete input: a caller-supplied code entry
overwrites the standard code of the details entry. -/
theorem caller_details_overwrite_witness :
    ("code", JValue.str "Custom") ∈ [("code", JValue.str "Custom")] ∧
    (([("code", JValue.str "Custom")].map Prod.fst).Nodup) ∧
    dictGet (ODataFilterError.init "msg" "FieldNotFound" "$filter"
        [("code", JValue.str "Custom")]).first_detail "code" =
      some (JValue.str "Custom") :=
  ⟨List.mem_cons_self _ _, by simp,
    caller_details_overwrite "msg" "FieldNotFound" "$filter"
      [("code", JValue.str "Custom")] "code" (JValue.str "Custom")
      (List.mem_cons_self _ _) (by simp)⟩

/-- Claim C1: translating the same parameter mapping twice within one cache
scope returns the identical (same-identity) Query Plan, whatever the scope
already contains; translating in two different fresh scopes returns plan
instances with distinct identities and equal structure, the second scope
never observing the entry of the first. -/
theorem cache_hit_identity_and_scope_isolation (scope : Scope) (alloc : Nat)
    (entity : String) (ps : List (String × String)) :
    (translateTwice scope alloc entity ps).2 =
      (translateTwice scope alloc entity ps).1 ∧
    (translateTwoScopes alloc entity ps).1.ident ≠
      (translateTwoScopes alloc entity ps).2.ident ∧
    (translateTwoScopes alloc entity ps).1.structEq
      (translateTwoScopes alloc entity ps).2 := by
  refine ⟨?_, ?_, ?_⟩
  · rcases hl : scopeLookup scope (generate_request_cache_key entity ps) with
      _ | p
    · simp [translateTwice, apply_odata_query_params, hl, scopeLookup_append,
        scopeLookup]
    · simp [translateTwice, apply_odata_query_params, hl]
  · simp [translateTwoScopes, apply_odata_query_params, odata_cache_context,
      scopeLookup]
  · simp [translateTwoScopes, apply_odata_query_params, odata_cache_context,
      scopeLookup, QueryPlan.structEq]

/-- Claim C8: after a parameter set has been cached (and served from the
cache once), clearing the cache and re-translating the same parameter set
produces a Query Plan that is a different instance from the cached one but
has equal structure. -/
theorem clear_cache_produces_fresh_plan (alloc : Nat) (entity : String)
    (ps : List (String × String)) :
    (translateClearScenario alloc entity ps).2.1 =
      (translateClearScenario alloc entity ps).1 ∧
    (translateClearScenario alloc entity ps).2.2.ident ≠
      (translateClearScenario alloc entity ps).1.ident ∧
    (translateClearScenario alloc entity ps).2.2.structEq
      (translateClearScenario alloc entity ps).1 := by
  refine ⟨?_, ?_, ?_⟩ <;>
    simp [translateClearScenario, apply_odata_query_params,
      odata_cache_context, clear_odata_cache, scopeLookup_append, scopeLookup,
      QueryPlan.structEq]

/-- Claim C2: two parameter mappings that hold the same key-value pairs and
differ only in insertion order produce the identical cache key for the same
entity. -/
theorem cache_key_order_independence (entity : String)
    (ps1 ps2 : List (String × String)) (hperm : ps1.Perm ps2)
    (hnd : (ps1.map Prod.fst).Nodup) :
    generate_request_cache_key entity ps1 =
      generate_request_cache_key entity ps2 := by
  unfold generate_request_cache_key
  have hps2nd : (ps2.map Prod.fst).Nodup :=
    ((hperm.map Prod.fst).nodup_iff).mp hnd
  have hp : (canonicalize ps1).Perm (canonicalize ps2) :=
    ((List.perm_insertionSort _ ps1).trans hperm).trans
      (List.perm_insertionSort _ ps2).symm
  have hs1 : List.Sorted (fun a b : String × String => a.1 ≤ b.1)
      (canonicalize ps1) := List.sorted_insertionSort _ ps1
  have hs2 : List.Sorted (fun a b : String × String => a.1 ≤ b.1)
      (canonicalize ps2) := List.sorted_insertionSort _ ps2
  have hnd1 : ((canonicalize ps1).map Prod.fst).Nodup :=
    (((List.perm_insertionSort _ ps1).map Prod.fst).nodup_iff).mpr hnd
  have hnd2 : ((canonicalize ps2).map Prod.fst).Nodup :=
    (((List.perm_insertionSort _ ps2).map Prod.fst).nodup_iff).mpr hps2nd
  have hne1 : List.Pairwise (fun a b : String × String => a.1 ≠ b.1)
      (canonicalize ps1) := List.pairwise_map.mp hnd1
  have hne2 : List.Pairwise (fun a b : String × String => a.1 ≠ b.1)
      (canonicalize ps2) := List.pairwise_map.mp hnd2
  have hlt1 : List.Sorted (fun a b : String × String => a.1 < b.1)
      (canonicalize ps1) :=
    (List.Pairwise.and hs1 hne1).imp (fun h => lt_of_le_of_ne h.1 h.2)
  have hlt2 : List.Sorted (fun a b : String × String => a.1 < b.1)
      (canonicalize ps2) :=
    (List.Pairwise.and hs2 hne2).imp (fun h => lt_of_le_of_ne h.1 h.2)
  exact congrArg (Prod.mk entity) (List.eq_of_perm_of_sorted hp hlt1 hlt2)

/-- Witness for claim C2 at a concrete input: the two parameter orders of
test_generate_cache_key_parameter_ordering yield the same key. -/
theorem cache_key_order_independence_witness :
    ([("$filter", "name eq x"), ("$orderby", "name")] :
      List (String × String)).Perm
        [("$orderby", "name"), ("$filter", "name eq x")] ∧
    (([("$filter", "name eq x"), ("$orderby", "name")] :
      List (String × String)).map Prod.fst).Nodup ∧
    generate_request_cache_key "MockModel"
        [("$filter", "name eq x"), ("$orderby", "name")] =
      generate_request_cache_key "MockModel"
        [("$orderby", "name"), ("$filter", "name eq x")] :=
  ⟨List.Perm.swap _ _ _, by simp,
    cache_key_order_independence "MockModel" _ _ (List.Perm.swap _ _ _)
      (by simp)⟩
